import Mathlib

/-!
Shallow embedding of the `busy-indicators` package
(`src/BusyIndicatorManager.ts`): a registry mapping string keys to
arbitrary JS values, with `strict` and `createOnGet` mode flags, and the
operations `init`, `add`, `remove`, `set`, `get`.

JS values are modelled by an inductive covering the value shapes the
registry manipulates (booleans, strings, numbers, `null`, `undefined`);
the JS object holding the entries is modelled as an association list with
unique keys.  Throwing operations return an `Except` together with the
state of the manager at the moment of return or throw, and the
`console.warn` calls are collected, in emission order, in a list.
-/

inductive JSValue where
  | vBool : Bool → JSValue
  | vStr : String → JSValue
  | vNum : Int → JSValue
  | vNull : JSValue
  | vUndefined : JSValue
deriving DecidableEq, Repr

/-- A JS value is nullish when it is `null` or `undefined`. -/
def JSValue.isNullish : JSValue → Bool
  | .vNull => true
  | .vUndefined => true
  | _ => false

/-- JS `v ?? false`: nullish values collapse to `false`. -/
def nullishElseFalse (v : JSValue) : JSValue :=
  if v.isNullish then .vBool false else v

/-- The `states` JS object: an association list from keys to values. -/
abbrev StatesObj := List (String × JSValue)

/-- JS property read `m[key]` (as an `Option`, `none` for absent). -/
def objGet : StatesObj → String → Option JSValue
  | [], _ => none
  | (k, v) :: rest, key => if k = key then some v else objGet rest key

/-- JS `key in m`. -/
def objHas (m : StatesObj) (key : String) : Bool :=
  (objGet m key).isSome

/-- JS property write `m[key] = v` (updates in place, or appends). -/
def objSet : StatesObj → String → JSValue → StatesObj
  | [], key, v => [(key, v)]
  | (k, w) :: rest, key, v =>
    if k = key then (k, v) :: rest else (k, w) :: objSet rest key v

/-- JS `delete m[key]`. -/
def objDelete : StatesObj → String → StatesObj
  | [], _ => []
  | (k, w) :: rest, key =>
    if k = key then rest else (k, w) :: objDelete rest key

/-- The fields of a `BusyIndicatorManager` instance. -/
structure ManagerState where
  states : StatesObj
  strict : Bool
  createOnGet : Bool
deriving DecidableEq, Repr

/-- The `console.warn` messages the operations can emit. -/
inductive Warning where
  | duplicateKey : String → JSValue → Warning
  | notRegistered : String → Warning
  | autoRegistered : String → JSValue → Warning
deriving DecidableEq, Repr

/-- The errors the operations can throw. -/
inductive BIError where
  | unregisteredKey : String → BIError
deriving DecidableEq, Repr

/-- Outcome of one method call: warnings emitted (in order), the manager
state when the call returned or threw, and the returned value or the
thrown error. -/
structure OpResult (α : Type) where
  warnings : List Warning
  state : ManagerState
  result : Except BIError α

/-- The optional argument of `init` (`InitOptions`); each field may be
omitted. -/
structure InitOptions where
  strictOpt : Option Bool
  createOnGetOpt : Option Bool
  initialStatesOpt : Option StatesObj
deriving DecidableEq, Repr

namespace BusyIndicatorManager

/-- `init(options?)`: `this.states = options?.initialStates || {};
this.strict = options?.strict || false;
this.createOnGet = options?.createOnGet ?? true;`.
The prior state of the instance is discarded entirely. -/
def init (_st : ManagerState) (options : Option InitOptions) : ManagerState :=
  { states := (options.bind (fun o => o.initialStatesOpt)).getD []
    strict := (options.bind (fun o => o.strictOpt)).getD false
    createOnGet := (options.bind (fun o => o.createOnGetOpt)).getD true }

/-- `add(key, initialState = false)`: insert when absent, otherwise warn
about the duplicate (quoting the current value) and leave state alone. -/
def add (st : ManagerState) (key : String) (initialState : JSValue) :
    OpResult Unit :=
  if !(objHas st.states key) then
    { warnings := []
      state := { st with states := objSet st.states key initialState }
      result := .ok () }
  else
    { warnings := [Warning.duplicateKey key ((objGet st.states key).getD .vUndefined)]
      state := st
      result := .ok () }

/-- The default `initialState` argument of `add`. -/
def addDefault : JSValue := .vBool false

/-- `remove(key)`: in strict mode an absent key warns then throws;
otherwise delete the key when present. -/
def remove (st : ManagerState) (key : String) : OpResult Unit :=
  if st.strict && !(objHas st.states key) then
    { warnings := [Warning.notRegistered key]
      state := st
      result := .error (BIError.unregisteredKey key) }
  else if objHas st.states key then
    { warnings := []
      state := { st with states := objDelete st.states key }
      result := .ok () }
  else
    { warnings := []
      state := st
      result := .ok () }

/-- `set(key, value = true)`: in strict mode an absent key warns then
throws; otherwise assign unconditionally. -/
def set (st : ManagerState) (key : String) (value : JSValue) :
    OpResult Unit :=
  if st.strict && !(objHas st.states key) then
    { warnings := [Warning.notRegistered key]
      state := st
      result := .error (BIError.unregisteredKey key) }
  else
    { warnings := []
      state := { st with states := objSet st.states key value }
      result := .ok () }

/-- The default `value` argument of `set`. -/
def setDefault : JSValue := .vBool true

/-- `get(key, fallbackValue = false)`: strict and absent either
auto-registers via `this.add(key, fallbackValue)` (when `createOnGet`)
and returns the fallback, or warns then throws; otherwise return
`this.states[key] ?? false`. -/
def get (st : ManagerState) (key : String) (fallbackValue : JSValue) :
    OpResult JSValue :=
  if st.strict && !(objHas st.states key) then
    if st.createOnGet then
      let r := add st key fallbackValue
      { warnings := r.warnings ++ [Warning.autoRegistered key fallbackValue]
        state := r.state
        result := .ok fallbackValue }
    else
      { warnings := [Warning.notRegistered key]
        state := st
        result := .error (BIError.unregisteredKey key) }
  else
    { warnings := []
      state := st
      result := .ok (nullishElseFalse ((objGet st.states key).getD .vUndefined)) }

/-- The default `fallbackValue` argument of `get`. -/
def getDefault : JSValue := .vBool false

end BusyIndicatorManager

deriving instance DecidableEq for Except

/-! Lemmas about the association-list object model. -/

theorem objGet_objSet_self (m : StatesObj) (k : String) (v : JSValue) :
    objGet (objSet m k v) k = some v := by
  induction m with
  | nil => simp [objSet, objGet]
  | cons hd tl ih =>
    obtain ⟨a, w⟩ := hd
    by_cases h : a = k <;> simp [objSet, objGet, h, ih]

theorem objGet_objSet_ne (m : StatesObj) (k k2 : String) (v : JSValue)
    (h : k2 ≠ k) : objGet (objSet m k v) k2 = objGet m k2 := by
  induction m with
  | nil => simp [objSet, objGet, Ne.symm h]
  | cons hd tl ih =>
    obtain ⟨a, w⟩ := hd
    by_cases ha : a = k
    · subst ha
      simp [objSet, objGet, Ne.symm h]
    · simp only [objSet, if_neg ha, objGet]
      by_cases hak : a = k2 <;> simp [hak, ih]

theorem objGet_objDelete_ne (m : StatesObj) (k k2 : String)
    (h : k2 ≠ k) : objGet (objDelete m k) k2 = objGet m k2 := by
  induction m with
  | nil => simp [objDelete]
  | cons hd tl ih =>
    obtain ⟨a, w⟩ := hd
    by_cases ha : a = k
    · subst ha
      simp [objDelete, objGet, Ne.symm h]
    · simp only [objDelete, if_neg ha, objGet]
      by_cases hak : a = k2 <;> simp [hak, ih]

theorem objHas_objSet_self (m : StatesObj) (k : String) (v : JSValue) :
    objHas (objSet m k v) k = true := by
  simp [objHas, objGet_objSet_self]

theorem objGet_eq_none_of_objHas_false (m : StatesObj) (k : String)
    (h : objHas m k = false) : objGet m k = none := by
  cases hh : objGet m k with
  | none => rfl
  | some v => simp [objHas, hh] at h

theorem nullishElseFalse_not_nullish (v : JSValue) :
    (nullishElseFalse v).isNullish = false := by
  cases v <;> simp [nullishElseFalse, JSValue.isNullish]

/-! Claim theorems. -/

/-- C1: for every state and every key absent from `states`, when `strict`
is enabled, `set` (any value) and `remove` both throw the
unregistered-key error and leave the whole manager state — in particular
the entries — exactly unchanged. -/
theorem c1_strict_set_remove_unregistered (st : ManagerState) (key : String)
    (v : JSValue) (hs : st.strict = true) (hk : objHas st.states key = false) :
    (BusyIndicatorManager.set st key v).result = .error (BIError.unregisteredKey key) ∧
    (BusyIndicatorManager.set st key v).state = st ∧
    (BusyIndicatorManager.remove st key).result = .error (BIError.unregisteredKey key) ∧
    (BusyIndicatorManager.remove st key).state = st := by
  simp [BusyIndicatorManager.set, BusyIndicatorManager.remove, hs, hk]

/-- Witness for C1 at a concrete strict state with an absent key. -/
theorem c1_witness :
    (⟨[], true, true⟩ : ManagerState).strict = true ∧
    objHas (⟨[], true, true⟩ : ManagerState).states "x" = false ∧
    ((BusyIndicatorManager.set ⟨[], true, true⟩ "x" (.vBool true)).result =
        .error (BIError.unregisteredKey "x") ∧
      (BusyIndicatorManager.set ⟨[], true, true⟩ "x" (.vBool true)).state = ⟨[], true, true⟩ ∧
      (BusyIndicatorManager.remove ⟨[], true, true⟩ "x").result =
        .error (BIError.unregisteredKey "x") ∧
      (BusyIndicatorManager.remove ⟨[], true, true⟩ "x").state = ⟨[], true, true⟩) :=
  ⟨rfl, rfl, c1_strict_set_remove_unregistered ⟨[], true, true⟩ "x" (.vBool true) rfl rfl⟩

/-- C5: for every key absent from `states`, with `strict` disabled,
`get` with the default fallback returns `false` and leaves the manager
state (entries and both mode flags) unchanged. -/
theorem c5_get_absent_nonstrict (st : ManagerState) (key : String)
    (hs : st.strict = false) (hk : objHas st.states key = false) :
    (BusyIndicatorManager.get st key BusyIndicatorManager.getDefault).result =
      .ok (.vBool false) ∧
    (BusyIndicatorManager.get st key BusyIndicatorManager.getDefault).state = st := by
  have hnone : objGet st.states key = none :=
    objGet_eq_none_of_objHas_false st.states key hk
  simp [BusyIndicatorManager.get, hs, hnone, nullishElseFalse, JSValue.isNullish]

/-- Witness for C5 at a concrete non-strict state with an absent key. -/
theorem c5_witness :
    (⟨[("a", .vBool true)], false, false⟩ : ManagerState).strict = false ∧
    objHas (⟨[("a", .vBool true)], false, false⟩ : ManagerState).states "x" = false ∧
    ((BusyIndicatorManager.get ⟨[("a", .vBool true)], false, false⟩ "x"
        BusyIndicatorManager.getDefault).result = .ok (.vBool false) ∧
      (BusyIndicatorManager.get ⟨[("a", .vBool true)], false, false⟩ "x"
        BusyIndicatorManager.getDefault).state = ⟨[("a", .vBool true)], false, false⟩) :=
  ⟨rfl, by decide,
    c5_get_absent_nonstrict ⟨[("a", .vBool true)], false, false⟩ "x" rfl (by decide)⟩

/-- C6: `init` replaces the entries wholesale with the supplied initial
mapping (or empty), independently of the prior state, and sets each mode
flag from its own option field for every combination of supplied and
omitted fields, defaulting `strict` to `false` and `createOnGet` to
`true` when the respective field is omitted; it always produces a state
(never fails). -/
theorem c6_init_reset (st st2 : ManagerState) (sOpt cOpt : Option Bool)
    (mOpt : Option StatesObj) (opts : Option InitOptions) :
    BusyIndicatorManager.init st opts = BusyIndicatorManager.init st2 opts ∧
    BusyIndicatorManager.init st none = ⟨[], false, true⟩ ∧
    (BusyIndicatorManager.init st (some ⟨sOpt, cOpt, mOpt⟩)).states = mOpt.getD [] ∧
    (BusyIndicatorManager.init st (some ⟨sOpt, cOpt, mOpt⟩)).strict = sOpt.getD false ∧
    (BusyIndicatorManager.init st (some ⟨sOpt, cOpt, mOpt⟩)).createOnGet = cOpt.getD true := by
  simp [BusyIndicatorManager.init]

/-- C8: for every key absent from `states`, with `strict` enabled and
`createOnGet` disabled, `get` warns (the warning is emitted, and it is
the only emission, so it precedes the throw), throws the
unregistered-key error, and leaves the state unchanged. -/
theorem c8_strict_get_no_create (st : ManagerState) (key : String)
    (hs : st.strict = true) (hc : st.createOnGet = false)
    (hk : objHas st.states key = false) :
    (BusyIndicatorManager.get st key BusyIndicatorManager.getDefault).result =
      .error (BIError.unregisteredKey key) ∧
    (BusyIndicatorManager.get st key BusyIndicatorManager.getDefault).warnings =
      [Warning.notRegistered key] ∧
    (BusyIndicatorManager.get st key BusyIndicatorManager.getDefault).state = st := by
  simp [BusyIndicatorManager.get, hs, hc, hk]

/-- Witness for C8 at a concrete strict, no-createOnGet state. -/
theorem c8_witness :
    (⟨[], true, false⟩ : ManagerState).strict = true ∧
    (⟨[], true, false⟩ : ManagerState).createOnGet = false ∧
    objHas (⟨[], true, false⟩ : ManagerState).states "k" = false ∧
    ((BusyIndicatorManager.get ⟨[], true, false⟩ "k"
        BusyIndicatorManager.getDefault).result = .error (BIError.unregisteredKey "k") ∧
      (BusyIndicatorManager.get ⟨[], true, false⟩ "k"
        BusyIndicatorManager.getDefault).warnings = [Warning.notRegistered "k"] ∧
      (BusyIndicatorManager.get ⟨[], true, false⟩ "k"
        BusyIndicatorManager.getDefault).state = ⟨[], true, false⟩) :=
  ⟨rfl, rfl, rfl, c8_strict_get_no_create ⟨[], true, false⟩ "k" rfl rfl rfl⟩

/-- C4: with `strict` disabled, `set(k, v)` succeeds and implicitly
registers `k` when absent, and an immediate `get(k)` returns `v`, except
that a nullish `v` reads back as `false`. -/
theorem c4_set_then_get (st : ManagerState) (key : String) (v : JSValue)
    (hs : st.strict = false) :
    (BusyIndicatorManager.set st key v).result = .ok () ∧
    objHas (BusyIndicatorManager.set st key v).state.states key = true ∧
    (BusyIndicatorManager.get (BusyIndicatorManager.set st key v).state key
        BusyIndicatorManager.getDefault).result =
      .ok (if v.isNullish then .vBool false else v) := by
  simp [BusyIndicatorManager.set, BusyIndicatorManager.get, hs,
    objHas_objSet_self, objGet_objSet_self, nullishElseFalse]

/-- Witness for C4 with a nullish value at a concrete state. -/
theorem c4_witness :
    (⟨[], false, true⟩ : ManagerState).strict = false ∧
    ((BusyIndicatorManager.set ⟨[], false, true⟩ "t" .vNull).result = .ok () ∧
      objHas (BusyIndicatorManager.set ⟨[], false, true⟩ "t" .vNull).state.states "t" = true ∧
      (BusyIndicatorManager.get (BusyIndicatorManager.set ⟨[], false, true⟩ "t" .vNull).state "t"
          BusyIndicatorManager.getDefault).result =
        .ok (if JSValue.isNullish .vNull then .vBool false else .vNull)) :=
  ⟨rfl, c4_set_then_get ⟨[], false, true⟩ "t" .vNull rfl⟩

/-- C7: `add` never fails in any mode (first conjunct, over an arbitrary
state `st0` and value `z`); on an absent key it inserts the value, with
the omitted argument defaulting to `false`; a second `add` with a
different value keeps the first value, emits the duplicate warning
(quoting the current value), and still succeeds. -/
theorem c7_add_never_fails (st st0 : ManagerState) (key : String)
    (x y z : JSValue) (hk : objHas st.states key = false) (_hxy : x ≠ y) :
    (BusyIndicatorManager.add st0 key z).result = .ok () ∧
    (BusyIndicatorManager.add st key BusyIndicatorManager.addDefault).state.states =
      objSet st.states key (.vBool false) ∧
    objGet (BusyIndicatorManager.add st key x).state.states key = some x ∧
    (BusyIndicatorManager.add (BusyIndicatorManager.add st key x).state key y).result = .ok () ∧
    objGet (BusyIndicatorManager.add (BusyIndicatorManager.add st key x).state key y).state.states key = some x ∧
    (BusyIndicatorManager.add (BusyIndicatorManager.add st key x).state key y).warnings =
      [Warning.duplicateKey key x] := by
  refine ⟨?_, ?_, ?_, ?_, ?_, ?_⟩
  · unfold BusyIndicatorManager.add
    split <;> rfl
  · simp [BusyIndicatorManager.add, hk, BusyIndicatorManager.addDefault]
  · simp [BusyIndicatorManager.add, hk, objGet_objSet_self]
  · simp [BusyIndicatorManager.add, hk, objHas_objSet_self, objGet_objSet_self]
  · simp [BusyIndicatorManager.add, hk, objHas_objSet_self, objGet_objSet_self]
  · simp [BusyIndicatorManager.add, hk, objHas_objSet_self, objGet_objSet_self]

/-- Witness for C7 at concrete states and distinct values. -/
theorem c7_witness :
    objHas (⟨[], false, true⟩ : ManagerState).states "k" = false ∧
    (JSValue.vBool true) ≠ (JSValue.vBool false) ∧
    ((BusyIndicatorManager.add ⟨[("a", .vNull)], true, false⟩ "k" (.vStr "s")).result = .ok () ∧
      (BusyIndicatorManager.add ⟨[], false, true⟩ "k" BusyIndicatorManager.addDefault).state.states =
        objSet ([] : StatesObj) "k" (.vBool false) ∧
      objGet (BusyIndicatorManager.add ⟨[], false, true⟩ "k" (.vBool true)).state.states "k" =
        some (.vBool true) ∧
      (BusyIndicatorManager.add (BusyIndicatorManager.add ⟨[], false, true⟩ "k" (.vBool true)).state "k"
        (.vBool false)).result = .ok () ∧
      objGet (BusyIndicatorManager.add (BusyIndicatorManager.add ⟨[], false, true⟩ "k" (.vBool true)).state "k"
        (.vBool false)).state.states "k" = some (.vBool true) ∧
      (BusyIndicatorManager.add (BusyIndicatorManager.add ⟨[], false, true⟩ "k" (.vBool true)).state "k"
        (.vBool false)).warnings = [Warning.duplicateKey "k" (.vBool true)]) :=
  ⟨by decide, by decide,
    c7_add_never_fails ⟨[], false, true⟩ ⟨[("a", .vNull)], true, false⟩ "k"
      (.vBool true) (.vBool false) (.vStr "s") (by decide) (by decide)⟩

/-- C9: for every key present in `states` — whatever its stored value,
including `false` and nullish values — `remove`, `set`, and `get` all
succeed with no warning and no error, in every mode (in particular with
`strict` enabled): presence alone rules out the unregistered-key path. -/
theorem c9_present_key_ops (st : ManagerState) (key : String) (v fb : JSValue)
    (hk : objHas st.states key = true) :
    ((BusyIndicatorManager.remove st key).result = .ok () ∧
      (BusyIndicatorManager.remove st key).warnings = []) ∧
    ((BusyIndicatorManager.set st key v).result = .ok () ∧
      (BusyIndicatorManager.set st key v).warnings = []) ∧
    (∃ w, (BusyIndicatorManager.get st key fb).result = .ok w) ∧
    (BusyIndicatorManager.get st key fb).warnings = [] := by
  simp [BusyIndicatorManager.remove, BusyIndicatorManager.set,
    BusyIndicatorManager.get, hk]

/-- Witness for C9 at a strict state whose key holds `null`. -/
theorem c9_witness :
    (⟨[("k", .vNull)], true, false⟩ : ManagerState).strict = true ∧
    objHas (⟨[("k", .vNull)], true, false⟩ : ManagerState).states "k" = true ∧
    (((BusyIndicatorManager.remove ⟨[("k", .vNull)], true, false⟩ "k").result = .ok () ∧
        (BusyIndicatorManager.remove ⟨[("k", .vNull)], true, false⟩ "k").warnings = []) ∧
      ((BusyIndicatorManager.set ⟨[("k", .vNull)], true, false⟩ "k" (.vBool true)).result = .ok () ∧
        (BusyIndicatorManager.set ⟨[("k", .vNull)], true, false⟩ "k" (.vBool true)).warnings = []) ∧
      (∃ w, (BusyIndicatorManager.get ⟨[("k", .vNull)], true, false⟩ "k"
        BusyIndicatorManager.getDefault).result = .ok w) ∧
      (BusyIndicatorManager.get ⟨[("k", .vNull)], true, false⟩ "k"
        BusyIndicatorManager.getDefault).warnings = []) :=
  ⟨rfl, by decide,
    c9_present_key_ops ⟨[("k", .vNull)], true, false⟩ "k" (.vBool true)
      BusyIndicatorManager.getDefault (by decide)⟩

/-- C2 counterexample: with a nullish fallback the claim fails — at the
empty strict createOnGet state, `get("k", null)` registers and returns
`null`, but the subsequent `get("k")` returns `false`, not the fallback
again. -/
theorem c2_counterexample :
    (⟨[], true, true⟩ : ManagerState).strict = true ∧
    (⟨[], true, true⟩ : ManagerState).createOnGet = true ∧
    objHas (⟨[], true, true⟩ : ManagerState).states "k" = false ∧
    (BusyIndicatorManager.get ⟨[], true, true⟩ "k" .vNull).result = .ok .vNull ∧
    (BusyIndicatorManager.get (BusyIndicatorManager.get ⟨[], true, true⟩ "k" .vNull).state "k"
      BusyIndicatorManager.getDefault).result ≠ .ok .vNull := by
  decide

/-- C2 (amended): with `strict` and `createOnGet` enabled and the key
absent, `get(k, fb)` registers `k → fb` and returns `fb`; the subsequent
`get(k)` returns `fb` again provided `fb` is not nullish (a stored
nullish fallback reads back as `false`). -/
theorem c2_strict_create_on_get (st : ManagerState) (key : String)
    (fb : JSValue) (hs : st.strict = true) (hc : st.createOnGet = true)
    (hk : objHas st.states key = false) :
    (BusyIndicatorManager.get st key fb).result = .ok fb ∧
    objGet (BusyIndicatorManager.get st key fb).state.states key = some fb ∧
    (fb.isNullish = false →
      (BusyIndicatorManager.get (BusyIndicatorManager.get st key fb).state key
        BusyIndicatorManager.getDefault).result = .ok fb) := by
  have h1 : (BusyIndicatorManager.get st key fb).state =
      { st with states := objSet st.states key fb } := by
    simp [BusyIndicatorManager.get, BusyIndicatorManager.add, hs, hc, hk]
  refine ⟨?_, ?_, ?_⟩
  · simp [BusyIndicatorManager.get, hs, hc, hk]
  · rw [h1]
    exact objGet_objSet_self st.states key fb
  · intro hnn
    rw [h1]
    simp [BusyIndicatorManager.get, objHas_objSet_self, objGet_objSet_self,
      nullishElseFalse, hnn]

/-- Witness for the amended C2 with a non-nullish string fallback. -/
theorem c2_witness :
    (⟨[], true, true⟩ : ManagerState).strict = true ∧
    (⟨[], true, true⟩ : ManagerState).createOnGet = true ∧
    objHas (⟨[], true, true⟩ : ManagerState).states "k" = false ∧
    (BusyIndicatorManager.get ⟨[], true, true⟩ "k" (.vStr "go")).result = .ok (.vStr "go") ∧
    objGet (BusyIndicatorManager.get ⟨[], true, true⟩ "k" (.vStr "go")).state.states "k" =
      some (.vStr "go") ∧
    (BusyIndicatorManager.get (BusyIndicatorManager.get ⟨[], true, true⟩ "k" (.vStr "go")).state "k"
      BusyIndicatorManager.getDefault).result = .ok (.vStr "go") :=
  have h := c2_strict_create_on_get ⟨[], true, true⟩ "k" (.vStr "go") rfl rfl rfl
  ⟨rfl, rfl, rfl, h.1, h.2.1, h.2.2 rfl⟩

/-- C3 counterexample: `get` can return a nullish value — at the empty
strict createOnGet state, `get("k", null)` returns `null` itself. -/
theorem c3_counterexample :
    (BusyIndicatorManager.get ⟨[], true, true⟩ "k" .vNull).result = .ok .vNull ∧
    JSValue.isNullish .vNull = true := by
  decide

/-- C3 (amended): `get` on a key present in `states` returns the stored
value with nullish values coerced to `false`; and the only way any `get`
call returns a nullish value is the strict createOnGet auto-registration
path returning its (nullish) fallback for an absent key. -/
theorem c3_get_present_coercion (st : ManagerState) (key : String)
    (fb v : JSValue) :
    (objGet st.states key = some v →
      (BusyIndicatorManager.get st key fb).result =
        .ok (if v.isNullish then .vBool false else v)) ∧
    (∀ w, (BusyIndicatorManager.get st key fb).result = .ok w →
      w.isNullish = true →
      st.strict = true ∧ st.createOnGet = true ∧
      objHas st.states key = false ∧ w = fb) := by
  constructor
  · intro hv
    have hhas : objHas st.states key = true := by simp [objHas, hv]
    simp [BusyIndicatorManager.get, hhas, hv, nullishElseFalse]
  · intro w hw hnull
    by_cases hs : st.strict = true
    · by_cases hhas : objHas st.states key = true
      · simp [BusyIndicatorManager.get, hs, hhas] at hw
        rw [← hw] at hnull
        rw [nullishElseFalse_not_nullish] at hnull
        exact absurd hnull (by simp)
      · by_cases hcg : st.createOnGet = true
        · simp [BusyIndicatorManager.get, hs, hhas, hcg] at hw
          exact ⟨hs, hcg, by simpa using hhas, hw.symm⟩
        · simp [BusyIndicatorManager.get, hs, hhas, hcg] at hw
    · simp [BusyIndicatorManager.get, hs] at hw
      rw [← hw] at hnull
      rw [nullishElseFalse_not_nullish] at hnull
      exact absurd hnull (by simp)

/-- Witness for the amended C3 at a state storing `null` under the key. -/
theorem c3_witness :
    objGet ([("k", JSValue.vNull)] : StatesObj) "k" = some .vNull ∧
    (BusyIndicatorManager.get ⟨[("k", .vNull)], false, true⟩ "k"
        BusyIndicatorManager.getDefault).result =
      .ok (if JSValue.isNullish .vNull then .vBool false else .vNull) :=
  ⟨by decide,
    (c3_get_present_coercion ⟨[("k", .vNull)], false, true⟩ "k"
      BusyIndicatorManager.getDefault .vNull).1 (by decide)⟩

/-- C10: `add`, `remove`, `set`, and `get` leave the `strict` and
`createOnGet` flags unchanged and leave every entry for a key other than
the one they were called with untouched (only `init` can change the mode
flags). -/
theorem c10_frame (st : ManagerState) (key k2 : String) (v fb : JSValue)
    (hne : k2 ≠ key) :
    ((BusyIndicatorManager.add st key v).state.strict = st.strict ∧
      (BusyIndicatorManager.add st key v).state.createOnGet = st.createOnGet ∧
      objGet (BusyIndicatorManager.add st key v).state.states k2 = objGet st.states k2) ∧
    ((BusyIndicatorManager.remove st key).state.strict = st.strict ∧
      (BusyIndicatorManager.remove st key).state.createOnGet = st.createOnGet ∧
      objGet (BusyIndicatorManager.remove st key).state.states k2 = objGet st.states k2) ∧
    ((BusyIndicatorManager.set st key v).state.strict = st.strict ∧
      (BusyIndicatorManager.set st key v).state.createOnGet = st.createOnGet ∧
      objGet (BusyIndicatorManager.set st key v).state.states k2 = objGet st.states k2) ∧
    ((BusyIndicatorManager.get st key fb).state.strict = st.strict ∧
      (BusyIndicatorManager.get st key fb).state.createOnGet = st.createOnGet ∧
      objGet (BusyIndicatorManager.get st key fb).state.states k2 = objGet st.states k2) := by
  refine ⟨?_, ?_, ?_, ?_⟩
  · unfold BusyIndicatorManager.add
    split <;> simp [objGet_objSet_ne st.states key k2 v hne]
  · unfold BusyIndicatorManager.remove
    split
    · simp
    · split <;> simp [objGet_objDelete_ne st.states key k2 hne]
  · unfold BusyIndicatorManager.set
    split <;> simp [objGet_objSet_ne st.states key k2 v hne]
  · unfold BusyIndicatorManager.get BusyIndicatorManager.add
    split
    · split
      · split <;> simp [objGet_objSet_ne st.states key k2 fb hne]
      · simp
    · simp

/-- Witness for C10 at a concrete strict state and two distinct keys. -/
theorem c10_witness :
    ("a" : String) ≠ "b" ∧
    (((BusyIndicatorManager.add ⟨[("a", .vBool true)], true, true⟩ "b" .vNull).state.strict =
        (⟨[("a", .vBool true)], true, true⟩ : ManagerState).strict ∧
      (BusyIndicatorManager.add ⟨[("a", .vBool true)], true, true⟩ "b" .vNull).state.createOnGet =
        (⟨[("a", .vBool true)], true, true⟩ : ManagerState).createOnGet ∧
      objGet (BusyIndicatorManager.add ⟨[("a", .vBool true)], true, true⟩ "b" .vNull).state.states "a" =
        objGet ([("a", .vBool true)] : StatesObj) "a") ∧
    ((BusyIndicatorManager.remove ⟨[("a", .vBool true)], true, true⟩ "b").state.strict =
        (⟨[("a", .vBool true)], true, true⟩ : ManagerState).strict ∧
      (BusyIndicatorManager.remove ⟨[("a", .vBool true)], true, true⟩ "b").state.createOnGet =
        (⟨[("a", .vBool true)], true, true⟩ : ManagerState).createOnGet ∧
      objGet (BusyIndicatorManager.remove ⟨[("a", .vBool true)], true, true⟩ "b").state.states "a" =
        objGet ([("a", .vBool true)] : StatesObj) "a") ∧
    ((BusyIndicatorManager.set ⟨[("a", .vBool true)], true, true⟩ "b" .vNull).state.strict =
        (⟨[("a", .vBool true)], true, true⟩ : ManagerState).strict ∧
      (BusyIndicatorManager.set ⟨[("a", .vBool true)], true, true⟩ "b" .vNull).state.createOnGet =
        (⟨[("a", .vBool true)], true, true⟩ : ManagerState).createOnGet ∧
      objGet (BusyIndicatorManager.set ⟨[("a", .vBool true)], true, true⟩ "b" .vNull).state.states "a" =
        objGet ([("a", .vBool true)] : StatesObj) "a") ∧
    ((BusyIndicatorManager.get ⟨[("a", .vBool true)], true, true⟩ "b" .vNull).state.strict =
        (⟨[("a", .vBool true)], true, true⟩ : ManagerState).strict ∧
      (BusyIndicatorManager.get ⟨[("a", .vBool true)], true, true⟩ "b" .vNull).state.createOnGet =
        (⟨[("a", .vBool true)], true, true⟩ : ManagerState).createOnGet ∧
      objGet (BusyIndicatorManager.get ⟨[("a", .vBool true)], true, true⟩ "b" .vNull).state.states "a" =
        objGet ([("a", .vBool true)] : StatesObj) "a")) :=
  ⟨by decide,
    c10_frame ⟨[("a", .vBool true)], true, true⟩ "b" "a" .vNull .vNull (by decide)⟩
